import Mathlib

/-!
Shallow embedding of the narrow-phase collision subsystem of Tetra3d
(file `boundsCapsule.go` of the studied snapshot), together with models of
the collaborators the capsule code calls into (the scene-graph `Node`, the
`BoundingSphere`/`BoundingAABB`/`BoundingTriangles` partner types, the
`Collision`/`Intersection` result records, the pairwise intersection
routines `btSphereCapsule`, `btCapsuleCapsule`, `btCapsuleAABB`,
`btCapsuleTriangles`, and the sweep query `commonCollisionTest`), which are
part of the repository but not of the studied source files and are
therefore modelled from the specification.

Scalars are embedded as exact rationals (the Go code uses float64); square
roots appear only in derived magnitudes (MTV length, unit normals), never
in the collision predicates themselves, which compare squared distances.
-/

namespace Tetra3d

/-- A 3-component vector, mirroring `vector.Vector` as used by the bounds
code (always three components). -/
@[ext]
structure Vec3 where
  x : ℚ
  y : ℚ
  z : ℚ
deriving DecidableEq, Repr

/-- Componentwise vector addition (`Vector.Add`). -/
def vadd (a b : Vec3) : Vec3 := ⟨a.x + b.x, a.y + b.y, a.z + b.z⟩

/-- Componentwise vector subtraction (`Vector.Sub`). -/
def vsub (a b : Vec3) : Vec3 := ⟨a.x - b.x, a.y - b.y, a.z - b.z⟩

/-- Vector negation (`Vector.Invert`). -/
def vneg (a : Vec3) : Vec3 := ⟨-a.x, -a.y, -a.z⟩

/-- Scaling a vector by a scalar (`Vector.Scale`). -/
def vscale (a : Vec3) (s : ℚ) : Vec3 := ⟨a.x * s, a.y * s, a.z * s⟩

/-- Dot product of two vectors (helper `dot` of the source package). -/
def dot (a b : Vec3) : ℚ := a.x * b.x + a.y * b.y + a.z * b.z

/-- Squared Euclidean norm of a vector. -/
def normSq (a : Vec3) : ℚ := dot a a

/-- Squared Euclidean distance between two points. -/
def distSq (a b : Vec3) : ℚ := normSq (vsub a b)

/-- Componentwise product of two vectors (used to compose scale factors
along a scene-graph ancestor chain). -/
def compMul (a b : Vec3) : Vec3 := ⟨a.x * b.x, a.y * b.y, a.z * b.z⟩

/-- Absolute value on the rational scalars (`math.Abs`). -/
def qabs (q : ℚ) : ℚ := if q < 0 then -q else q

/-- Binary maximum on the rational scalars (`math.Max`). -/
def qmax (a b : ℚ) : ℚ := if a ≤ b then b else a

/-- Binary minimum on the rational scalars (`math.Min`). -/
def qmin (a b : ℚ) : ℚ := if b ≤ a then b else a

/-- Largest absolute component of a vector: the uniform-scale
approximation `math.Max(math.Max(math.Abs(s0), math.Abs(s1)), math.Abs(s2))`
used for spheres and capsules. -/
def maxAbs3 (v : Vec3) : ℚ := qmax (qmax (qabs v.x) (qabs v.y)) (qabs v.z)

/-- Clamping a parameter into the interval from 0 to 1, in the source's
order `math.Max(math.Min(t, 1), 0)`. -/
def clamp01 (t : ℚ) : ℚ := qmax (qmin t 1) 0

/-- Floor of the natural square root by bounded linear search; used only to
build `sqrtQ`. It is exact on perfect squares, which is the only exactness
the development relies on. -/
def natSqrt (n : Nat) : Nat :=
  ((List.range (n + 1)).filter (fun k => k * k ≤ n)).foldl max 0

/-- Modelled from the spec: the float64 square root (`math.Sqrt`) used when
turning a squared distance into a magnitude for MTV/normal scaling. On
rationals it is computed on numerator and denominator and is exact on
squares of rationals; every collision predicate in this development
compares squared quantities instead, so no claim depends on its value on
non-squares. -/
def sqrtQ (q : ℚ) : ℚ :=
  (natSqrt q.num.toNat : ℚ) / (natSqrt q.den : ℚ)

/-- Modelled from the spec: the scene-graph `Node` (an external
collaborator not among the studied source files). It supplies the world
position, the world rotation — represented here by its derived world-up
unit vector, the only part of the rotation the capsule code consumes — and
the scale. `localScale` is the node's own scale and `parentScale` the
componentwise product of the ancestors' scales, so that the world scale is
their componentwise product; a root node has `parentScale` (1,1,1). The
`id` field models the node's heap address (object identity). -/
structure Node where
  worldPos : Vec3
  up : Vec3
  localScale : Vec3
  parentScale : Vec3
  name : String
  id : Nat
deriving DecidableEq, Repr

/-- Modelled from the spec: `Node.LocalScale` returns the node's own scale,
not composed with its ancestors. -/
def Node.LocalScale (n : Node) : Vec3 := n.localScale

/-- Modelled from the spec: the node's world scale, the componentwise
composition of its own scale with its ancestors' scales (a node
"inherit[s] its transformations" from its parent). -/
def Node.WorldScale (n : Node) : Vec3 := compMul n.parentScale n.localScale

/-- Modelled from the spec: `Node.WorldPosition`. -/
def Node.WorldPosition (n : Node) : Vec3 := n.worldPos

/-- Modelled from the spec: `Node.WorldRotation().Up()`, the world-space up
unit vector derived from the node's world rotation. -/
def Node.worldUp (n : Node) : Vec3 := n.up

/-- Modelled from the spec: `NewNode` creates a node at the origin with
identity rotation (up = +Y) and unit scale; `id` models the fresh heap
address. -/
def NewNode (name : String) (id : Nat) : Node :=
  ⟨⟨0, 0, 0⟩, ⟨0, 1, 0⟩, ⟨1, 1, 1⟩, ⟨1, 1, 1⟩, name, id⟩

/-- The all-zero node used to totalize methods that the Go code would only
ever reach with a nil node by faulting; no claim exercises that case. -/
def zeroNode : Node := ⟨⟨0, 0, 0⟩, ⟨0, 0, 0⟩, ⟨0, 0, 0⟩, ⟨0, 0, 0⟩, "", 0⟩

/-- Modelled from the spec: `BoundingSphere` (file `boundsSphere.go` is not
among the studied sources): a node reference and a local radius. `id`
models object identity. -/
structure BoundingSphere where
  node : Option Node
  Radius : ℚ
  id : Nat
deriving DecidableEq, Repr

/-- Modelled from the spec: `NewBoundingSphere` attaches a fresh node. -/
def NewBoundingSphere (name : String) (radius : ℚ) (id : Nat) : BoundingSphere :=
  ⟨some (NewNode name id), radius, id⟩

/-- The sphere's node, or the zero node when detached. -/
def BoundingSphere.nodeOrZero (s : BoundingSphere) : Node := s.node.getD zeroNode

/-- Modelled from the spec: the sphere's world position. -/
def BoundingSphere.WorldPosition (s : BoundingSphere) : Vec3 := s.nodeOrZero.worldPos

/-- Modelled from the spec: the sphere's world radius, the local radius
times the maximum absolute component of the node's world scale. -/
def BoundingSphere.WorldRadius (s : BoundingSphere) : ℚ :=
  s.Radius * maxAbs3 s.nodeOrZero.WorldScale

/-- `BoundingCapsule` (source file `boundsCapsule.go`): an embedded node
reference, the local `Height` and `Radius`, and the cached internal
sphere created by the constructor. `id` models object identity (the
pointer to the capsule). -/
structure BoundingCapsule where
  node : Option Node
  Height : ℚ
  Radius : ℚ
  internalSphere : BoundingSphere
  id : Nat
deriving DecidableEq, Repr

/-- The capsule's node, or the zero node when detached (the source
dereferences the node without a guard in most methods and would fault on a
detached capsule; no claim exercises that case). -/
def BoundingCapsule.nodeOrZero (c : BoundingCapsule) : Node := c.node.getD zeroNode

/-- The capsule's node name (`capsule.name`, the embedded node's name). -/
def BoundingCapsule.name (c : BoundingCapsule) : String := c.nodeOrZero.name

/-- `NewBoundingCapsule`: height is clamped below by the radius
(`math.Max(radius, height)`); a fresh node and internal sphere are
attached. `id` models the fresh heap addresses. -/
def NewBoundingCapsule (name : String) (height radius : ℚ) (id : Nat) : BoundingCapsule :=
  { node := some (NewNode name id)
    Height := qmax radius height
    Radius := radius
    internalSphere := NewBoundingSphere "internal sphere" 0 id
    id := id }

/-- `Clone`: a new capsule built by the constructor from the original's
name, height and radius, whose node is then replaced by a clone of the
original's node (same transform, new identity). `newId` models the fresh
heap address. -/
def BoundingCapsule.Clone (c : BoundingCapsule) (newId : Nat) : BoundingCapsule :=
  let cl := NewBoundingCapsule c.name c.Height c.Radius newId
  { cl with node := c.node.map (fun n => { n with id := newId }) }

/-- `WorldRadius`: the local radius times the largest absolute component of
the node's `LocalScale`, or times 1 when the capsule has no node. -/
def BoundingCapsule.WorldRadius (c : BoundingCapsule) : ℚ :=
  match c.node with
  | none => c.Radius * 1
  | some n => c.Radius * maxAbs3 n.LocalScale

/-- `ClosestPoint`: the closest point to `point` on the capsule's central
segment, which runs between the world position offset by plus/minus
`Height/2 - Radius` along the node's world-up vector; the parameter is
computed by dividing by the segment's squared length (no guard against a
zero denominator) and clamped into the unit interval. -/
def BoundingCapsule.ClosestPoint (c : BoundingCapsule) (point : Vec3) : Vec3 :=
  let up := c.nodeOrZero.worldUp
  let start := vadd c.nodeOrZero.WorldPosition (vscale up (-c.Height / 2 + c.Radius))
  let stop := vadd c.nodeOrZero.WorldPosition (vscale up (c.Height / 2 - c.Radius))
  let segment := vsub stop start
  let t := dot (vsub point start) segment / dot segment segment
  let t2 := qmax (qmin t 1) 0
  vadd start (vscale segment t2)

/-- `lineTop`: the world position of the top end of the capsule's internal
segment (radius subtracted from the half height). -/
def BoundingCapsule.lineTop (c : BoundingCapsule) : Vec3 :=
  vadd c.nodeOrZero.WorldPosition (vscale c.nodeOrZero.worldUp (c.Height / 2 - c.Radius))

/-- `Top`: the world position of the top of the capsule (full half
height). -/
def BoundingCapsule.Top (c : BoundingCapsule) : Vec3 :=
  vadd c.nodeOrZero.WorldPosition (vscale c.nodeOrZero.worldUp (c.Height / 2))

/-- `lineBottom`: the world position of the bottom end of the capsule's
internal segment (radius subtracted from the half height). -/
def BoundingCapsule.lineBottom (c : BoundingCapsule) : Vec3 :=
  vadd c.nodeOrZero.WorldPosition (vscale c.nodeOrZero.worldUp (-c.Height / 2 + c.Radius))

/-- `Bottom`: the world position of the bottom of the capsule (full half
height). -/
def BoundingCapsule.Bottom (c : BoundingCapsule) : Vec3 :=
  vadd c.nodeOrZero.WorldPosition (vscale c.nodeOrZero.worldUp (-c.Height / 2))

/-- Modelled from the spec: `BoundingAABB` (file `boundsAABB.go` is not
among the studied sources): world position from the node, plus local
half-extents along the three world axes; node rotation does not reorient
the box, only scale affects the extents, per axis. -/
structure BoundingAABB where
  node : Option Node
  halfExtents : Vec3
  id : Nat
deriving DecidableEq, Repr

/-- The box's node, or the zero node when detached. -/
def BoundingAABB.nodeOrZero (b : BoundingAABB) : Node := b.node.getD zeroNode

/-- Modelled from the spec: the box's world half-extents, the local
half-extents scaled per axis by the absolute world scale. -/
def BoundingAABB.worldHalf (b : BoundingAABB) : Vec3 :=
  let s := b.nodeOrZero.WorldScale
  ⟨b.halfExtents.x * qabs s.x, b.halfExtents.y * qabs s.y, b.halfExtents.z * qabs s.z⟩

/-- A triangle as three world-space vertex positions. -/
structure Tri where
  a : Vec3
  b : Vec3
  c : Vec3
deriving DecidableEq, Repr

/-- Modelled from the spec: `BoundingTriangles` (file `boundsTriangles.go`
is not among the studied sources): a static collection of triangles; the
model holds the vertices already transformed to world space (the source
transforms them on demand from the node's world transform). -/
structure BoundingTriangles where
  node : Option Node
  tris : List Tri
  id : Nat
deriving DecidableEq, Repr

/-- Modelled from the spec: one `Intersection` record: the minimum
translation vector, the unit contact normal, and the contact point the
sweep query measures distances to. -/
structure Intersection where
  MTV : Vec3
  normal : Vec3
  contactPoint : Vec3
deriving DecidableEq, Repr

/-- Sign-flips an intersection's MTV and contact normal, leaving the
contact point unchanged: the loop body of the capsule-vs-sphere dispatch
case (`inter.MTV = inter.MTV.Invert(); vector.In(inter.Normal).Invert()`). -/
def invertIntersection (i : Intersection) : Intersection :=
  { i with MTV := vneg i.MTV, normal := vneg i.normal }

/-- The closed set of `BoundingObject` implementors the dispatch
recognizes, as a tagged variant type. The extra `unrecognized` constructor
stands for a value of any further implementor of the Go `BoundingObject`
interface, which the dispatch must treat as a fatal error. -/
inductive BoundingObject where
  | capsule (c : BoundingCapsule)
  | sphere (s : BoundingSphere)
  | aabb (b : BoundingAABB)
  | triangles (t : BoundingTriangles)
  | unrecognized (id : Nat)
deriving DecidableEq, Repr

/-- Whether the object is one of the four supported bounding-volume
types. -/
def BoundingObject.isKnown : BoundingObject → Bool
  | .unrecognized _ => false
  | _ => true

/-- The object identity (modelling the heap address of the Go value). -/
def BoundingObject.objId : BoundingObject → Nat
  | .capsule c => c.id
  | .sphere s => s.id
  | .aabb b => b.id
  | .triangles t => t.id
  | .unrecognized i => i

/-- The constructor tag, used to model Go interface equality (two interface
values are equal only when their dynamic types agree). -/
def BoundingObject.tag : BoundingObject → Nat
  | .capsule _ => 0
  | .sphere _ => 1
  | .aabb _ => 2
  | .triangles _ => 3
  | .unrecognized _ => 4

/-- Go interface equality `other == self` on bounding objects: same dynamic
type and same object identity. -/
def sameObject (a b : BoundingObject) : Bool :=
  a.tag == b.tag && a.objId == b.objId

/-- Modelled from the spec: a `Collision` result: the colliding partner
volume and an ordered sequence of Intersection records. -/
structure Collision where
  collidedObject : BoundingObject
  intersections : List Intersection
deriving DecidableEq, Repr

/-- Closest point on the segment from `a` to `b` to the point `p`
(clamped parametrization); the shared segment-closest-point helper of the
modelled routines. -/
def closestOnSegment (a b p : Vec3) : Vec3 :=
  let seg := vsub b a
  let t := clamp01 (dot (vsub p a) seg / dot seg seg)
  vadd a (vscale seg t)

/-- Modelled from the spec: the Sphere-Capsule routine `btSphereCapsule`,
expressed from the sphere's point of view: the closest point on the
capsule's central segment to the sphere center; a collision occurs iff the
distance is strictly less than the sum of the world radii (compared in
squared form, which is exact); the MTV pushes the sphere away from the
capsule along that direction with magnitude (sum of radii minus distance),
the normal is the same unit direction, and the contact point is the point
of the sphere's surface facing the capsule. -/
def btSphereCapsule (sphere : BoundingSphere) (capsule : BoundingCapsule) : Option Collision :=
  let spherePos := sphere.WorldPosition
  let closest := capsule.ClosestPoint spherePos
  let sr := sphere.WorldRadius
  let cr := capsule.WorldRadius
  let dir := vsub spherePos closest
  let dSq := normSq dir
  if dSq < (sr + cr) * (sr + cr) then
    let d := sqrtQ dSq
    some { collidedObject := .capsule capsule
           intersections := [{ MTV := vscale dir ((sr + cr - d) / d)
                               normal := vscale dir (1 / d)
                               contactPoint := vsub spherePos (vscale dir (sr / d)) }] }
  else none

/-- Closest pair of points between the segments from `p1` to `q1` and from
`p2` to `q2`: the standard clamped closest-point-between-two-line-segments
algorithm, with the degenerate zero-length and parallel cases handled
explicitly (spec 4.1). -/
def segClosest (p1 q1 p2 q2 : Vec3) : Vec3 × Vec3 :=
  let d1 := vsub q1 p1
  let d2 := vsub q2 p2
  let r := vsub p1 p2
  let a := dot d1 d1
  let e := dot d2 d2
  let f := dot d2 r
  if a = 0 ∧ e = 0 then (p1, p2)
  else if a = 0 then (p1, vadd p2 (vscale d2 (clamp01 (f / e))))
  else
    let c := dot d1 r
    if e = 0 then (vadd p1 (vscale d1 (clamp01 (-c / a))), p2)
    else
      let b := dot d1 d2
      let denom := a * e - b * b
      let s := if denom = 0 then 0 else clamp01 ((b * f - c * e) / denom)
      let t := (b * s + f) / e
      if t < 0 then (vadd p1 (vscale d1 (clamp01 (-c / a))), p2)
      else if 1 < t then (vadd p1 (vscale d1 (clamp01 ((b - c) / a))), vadd p2 d2)
      else (vadd p1 (vscale d1 s), vadd p2 (vscale d2 t))

/-- Modelled from the spec: the Capsule-Capsule routine `btCapsuleCapsule`
(spec 4.1): closest pair of points between the two world segments; a
collision occurs iff their distance is strictly less than the sum of the
two world radii (compared in squared form); MTV = the unit direction from
the point on A to the point on B scaled by (sum of radii minus distance),
the contact normal is that same unit direction, and the contact point is
the point of A's surface toward B. -/
def btCapsuleCapsule (capA capB : BoundingCapsule) : Option Collision :=
  let pq := segClosest capA.lineBottom capA.lineTop capB.lineBottom capB.lineTop
  let ra := capA.WorldRadius
  let rb := capB.WorldRadius
  let dir := vsub pq.2 pq.1
  let dSq := normSq dir
  if dSq < (ra + rb) * (ra + rb) then
    let d := sqrtQ dSq
    some { collidedObject := .capsule capB
           intersections := [{ MTV := vscale dir ((ra + rb - d) / d)
                               normal := vscale dir (1 / d)
                               contactPoint := vadd pq.1 (vscale dir (ra / d)) }] }
  else none

/-- Per-axis clamp of a point into the box's world extents around its world
position. -/
def clampToBox (b : BoundingAABB) (p : Vec3) : Vec3 :=
  let c := b.nodeOrZero.worldPos
  let h := b.worldHalf
  ⟨qmax (qmin p.x (c.x + h.x)) (c.x - h.x),
   qmax (qmin p.y (c.y + h.y)) (c.y - h.y),
   qmax (qmin p.z (c.z + h.z)) (c.z - h.z)⟩

/-- Modelled from the spec: the Capsule-AABB routine `btCapsuleAABB` (spec
4.3): the capsule's segment is clipped against the box's extents — the
segment point closest to the box center is clamped per axis into the box
and the segment parametrization refined against the clamped point, the two
being interdependent; a collision occurs iff the resulting
segment-to-box-surface distance is strictly less than the capsule's world
radius (compared in squared form), with MTV along the separation direction
scaled by the remaining overlap and the normal its unit direction. -/
def btCapsuleAABB (capsule : BoundingCapsule) (box : BoundingAABB) : Option Collision :=
  let p := capsule.ClosestPoint box.nodeOrZero.worldPos
  let s := closestOnSegment capsule.lineBottom capsule.lineTop (clampToBox box p)
  let q := clampToBox box s
  let dir := vsub s q
  let dSq := normSq dir
  let r := capsule.WorldRadius
  if dSq < r * r then
    let d := sqrtQ dSq
    some { collidedObject := .aabb box
           intersections := [{ MTV := vscale dir ((r - d) / d)
                               normal := vscale dir (1 / d)
                               contactPoint := q }] }
  else none

/-- Closest point on the triangle with vertices `a`, `b`, `c` to the point
`p`, including edges and vertices, not just the interior plane projection:
the standard barycentric region walk. -/
def closestPtTriangle (p a b c : Vec3) : Vec3 :=
  let ab := vsub b a
  let ac := vsub c a
  let ap := vsub p a
  let d1 := dot ab ap
  let d2 := dot ac ap
  if d1 ≤ 0 ∧ d2 ≤ 0 then a
  else
    let bp := vsub p b
    let d3 := dot ab bp
    let d4 := dot ac bp
    if 0 ≤ d3 ∧ d4 ≤ d3 then b
    else
      let vc := d1 * d4 - d3 * d2
      if vc ≤ 0 ∧ 0 ≤ d1 ∧ d3 ≤ 0 then vadd a (vscale ab (d1 / (d1 - d3)))
      else
        let cp := vsub p c
        let d5 := dot ab cp
        let d6 := dot ac cp
        if 0 ≤ d6 ∧ d5 ≤ d6 then c
        else
          let vb := d5 * d2 - d1 * d6
          if vb ≤ 0 ∧ 0 ≤ d2 ∧ d6 ≤ 0 then vadd a (vscale ac (d2 / (d2 - d6)))
          else
            let va := d3 * d6 - d5 * d4
            if va ≤ 0 ∧ 0 ≤ d4 - d3 ∧ 0 ≤ d5 - d6 then
              vadd b (vscale (vsub c b) ((d4 - d3) / ((d4 - d3) + (d5 - d6))))
            else
              let denom := va + vb + vc
              vadd (vadd a (vscale ab (vb / denom))) (vscale ac (vc / denom))

/-- Modelled from the spec: a single triangle's test against the capsule
(spec 4.4): segment-vs-triangle closest-point logic — the segment point
nearest the triangle and the triangle point (interior, edge or vertex)
nearest that segment point; an Intersection is emitted iff the separation
is strictly less than the capsule's world radius (compared in squared
form), with MTV pushing the capsule away from the triangle along the
point-to-segment direction and the normal its unit direction. -/
def capsuleTriInter (capsule : BoundingCapsule) (t : Tri) : Option Intersection :=
  let centroid := vscale (vadd (vadd t.a t.b) t.c) (1 / 3)
  let s0 := capsule.ClosestPoint centroid
  let q0 := closestPtTriangle s0 t.a t.b t.c
  let s := closestOnSegment capsule.lineBottom capsule.lineTop q0
  let q := closestPtTriangle s t.a t.b t.c
  let dir := vsub s q
  let dSq := normSq dir
  let r := capsule.WorldRadius
  if dSq < r * r then
    let d := sqrtQ dSq
    some { MTV := vscale dir ((r - d) / d)
           normal := vscale dir (1 / d)
           contactPoint := q }
  else none

/-- Modelled from the spec: the Capsule-Triangles routine
`btCapsuleTriangles` (spec 4.4): one Intersection per qualifying world
triangle, no early exit and no merging; no Collision when no triangle
qualifies. -/
def btCapsuleTriangles (capsule : BoundingCapsule) (t : BoundingTriangles) : Option Collision :=
  match t.tris.filterMap (capsuleTriInter capsule) with
  | [] => none
  | i :: is => some { collidedObject := .triangles t, intersections := i :: is }

/-- `Collision` on the capsule (source, lines 59-91): returns none for the
capsule itself (Go interface equality against the receiver pointer), then
dispatches on the partner's concrete type — Capsule-Capsule directly;
Sphere-Capsule with the arguments swapped, the resulting Intersections'
MTVs and normals sign-flipped and the collided-object reference set to the
sphere; Capsule-AABB and Capsule-Triangles directly — and panics
(modelled as `Except.error`) on any unrecognized partner type. -/
def BoundingCapsule.CollisionE (capsule : BoundingCapsule) (other : BoundingObject) :
    Except String (Option Collision) :=
  if sameObject other (.capsule capsule) then .ok none
  else
    match other with
    | .capsule otherBounds => .ok (btCapsuleCapsule capsule otherBounds)
    | .sphere otherBounds =>
        .ok ((btSphereCapsule otherBounds capsule).map (fun col =>
          { collidedObject := .sphere otherBounds
            intersections := col.intersections.map invertIntersection }))
    | .aabb otherBounds => .ok (btCapsuleAABB capsule otherBounds)
    | .triangles otherBounds => .ok (btCapsuleTriangles capsule otherBounds)
    | .unrecognized _ => .error "Unimplemented bounds type"

/-- `Colliding` on the capsule (source, lines 53-55): whether `Collision`
returns a non-nil result; a panic in `Collision` propagates. -/
def BoundingCapsule.CollidingE (capsule : BoundingCapsule) (other : BoundingObject) :
    Except String Bool :=
  (capsule.CollisionE other).map Option.isSome

/-- Modelled from the spec: the Sphere-Sphere routine: two spheres collide
iff the distance between their centers is strictly less than the sum of
their world radii (compared in squared form); the MTV pushes the first
sphere away from the second along the center line. -/
def btSphereSphere (s1 s2 : BoundingSphere) : Option Collision :=
  let p1 := s1.WorldPosition
  let p2 := s2.WorldPosition
  let r1 := s1.WorldRadius
  let r2 := s2.WorldRadius
  let dir := vsub p1 p2
  let dSq := normSq dir
  if dSq < (r1 + r2) * (r1 + r2) then
    let d := sqrtQ dSq
    some { collidedObject := .sphere s2
           intersections := [{ MTV := vscale dir ((r1 + r2 - d) / d)
                               normal := vscale dir (1 / d)
                               contactPoint := vsub p1 (vscale dir (r1 / d)) }] }
  else none

/-- Modelled from the spec: the Sphere-AABB routine: the sphere center is
clamped into the box; a collision occurs iff the clamped point is strictly
closer than the sphere's world radius (compared in squared form), with MTV
pushing the sphere out along the separation direction. -/
def btSphereAABB (sphere : BoundingSphere) (box : BoundingAABB) : Option Collision :=
  let p := sphere.WorldPosition
  let q := clampToBox box p
  let dir := vsub p q
  let dSq := normSq dir
  let r := sphere.WorldRadius
  if dSq < r * r then
    let d := sqrtQ dSq
    some { collidedObject := .aabb box
           intersections := [{ MTV := vscale dir ((r - d) / d)
                               normal := vscale dir (1 / d)
                               contactPoint := q }] }
  else none

/-- Modelled from the spec: a single triangle's test against a sphere:
closest point on the triangle to the sphere center, collision iff strictly
within the world radius (compared in squared form). -/
def sphereTriInter (sphere : BoundingSphere) (t : Tri) : Option Intersection :=
  let p := sphere.WorldPosition
  let q := closestPtTriangle p t.a t.b t.c
  let dir := vsub p q
  let dSq := normSq dir
  let r := sphere.WorldRadius
  if dSq < r * r then
    let d := sqrtQ dSq
    some { MTV := vscale dir ((r - d) / d)
           normal := vscale dir (1 / d)
           contactPoint := q }
  else none

/-- Modelled from the spec: the Sphere-Triangles routine: one Intersection
per qualifying world triangle; no Collision when no triangle qualifies. -/
def btSphereTriangles (sphere : BoundingSphere) (t : BoundingTriangles) : Option Collision :=
  match t.tris.filterMap (sphereTriInter sphere) with
  | [] => none
  | i :: is => some { collidedObject := .triangles t, intersections := i :: is }

/-- Modelled from the spec: the AABB-AABB routine: the boxes overlap iff
they overlap strictly on every world axis; the MTV separates the first box
along the axis of least overlap. -/
def btAABBAABB (b1 b2 : BoundingAABB) : Option Collision :=
  let c1 := b1.nodeOrZero.worldPos
  let c2 := b2.nodeOrZero.worldPos
  let h1 := b1.worldHalf
  let h2 := b2.worldHalf
  let ox := h1.x + h2.x - qabs (c1.x - c2.x)
  let oy := h1.y + h2.y - qabs (c1.y - c2.y)
  let oz := h1.z + h2.z - qabs (c1.z - c2.z)
  if 0 < ox ∧ 0 < oy ∧ 0 < oz then
    let sx : ℚ := if c1.x < c2.x then -1 else 1
    let sy : ℚ := if c1.y < c2.y then -1 else 1
    let sz : ℚ := if c1.z < c2.z then -1 else 1
    let mtv : Vec3 :=
      if ox ≤ oy ∧ ox ≤ oz then ⟨sx * ox, 0, 0⟩
      else if oy ≤ oz then ⟨0, sy * oy, 0⟩
      else ⟨0, 0, sz * oz⟩
    some { collidedObject := .aabb b2
           intersections := [{ MTV := mtv
                               normal := ⟨mtv.x / (qabs mtv.x + qabs mtv.y + qabs mtv.z),
                                          mtv.y / (qabs mtv.x + qabs mtv.y + qabs mtv.z),
                                          mtv.z / (qabs mtv.x + qabs mtv.y + qabs mtv.z)⟩
                               contactPoint := vscale (vadd c1 c2) (1 / 2) }] }
  else none

/-- Inverts a pairwise result for the symmetric reverse call ("implement
one canonical routine per unordered pair and derive the reverse by
swapping arguments and negating the MTV/normal"), setting the collided
object to the given partner. -/
def invertCollision (partner : BoundingObject) (col : Option Collision) : Option Collision :=
  col.map (fun c =>
    { collidedObject := partner, intersections := c.intersections.map invertIntersection })

/-- Modelled from the spec: `Collision` on the sphere: the self-check first
(spec section 8: `A.Collision(A)` is always none), then dispatch over the
closed set of partner types, reusing the canonical routine of each
unordered pair — inverted when the sphere is the routine's second
argument — and a fatal error on an unrecognized partner type. -/
def BoundingSphere.CollisionE (sphere : BoundingSphere) (other : BoundingObject) :
    Except String (Option Collision) :=
  if sameObject other (.sphere sphere) then .ok none
  else
    match other with
    | .sphere otherBounds => .ok (btSphereSphere sphere otherBounds)
    | .capsule otherBounds => .ok (btSphereCapsule sphere otherBounds)
    | .aabb otherBounds => .ok (btSphereAABB sphere otherBounds)
    | .triangles otherBounds => .ok (btSphereTriangles sphere otherBounds)
    | .unrecognized _ => .error "Unimplemented bounds type"

/-- Modelled from the spec: `Collision` on the AABB: the self-check first
(spec section 8), then dispatch, reusing the canonical unordered-pair
routines with inversion where the box is their second argument, and a
fatal error on an unrecognized partner type. The spec gives no algorithm
for the AABB-Triangles pair; no claim depends on it and it is modelled as
the empty result. -/
def BoundingAABB.CollisionE (box : BoundingAABB) (other : BoundingObject) :
    Except String (Option Collision) :=
  if sameObject other (.aabb box) then .ok none
  else
    match other with
    | .aabb otherBounds => .ok (btAABBAABB box otherBounds)
    | .capsule otherBounds => .ok (invertCollision (.capsule otherBounds) (btCapsuleAABB otherBounds box))
    | .sphere otherBounds => .ok (invertCollision (.sphere otherBounds) (btSphereAABB otherBounds box))
    | .triangles _ => .ok none
    | .unrecognized _ => .error "Unimplemented bounds type"

/-- Modelled from the spec: `Collision` on the triangle mesh: the
self-check first (spec section 8), then dispatch, reusing the canonical
unordered-pair routines with inversion where the mesh is their second
argument, and a fatal error on an unrecognized partner type. The spec
gives no algorithm for the Triangles-AABB and Triangles-Triangles pairs;
no claim depends on them and they are modelled as the empty result. -/
def BoundingTriangles.CollisionE (tris : BoundingTriangles) (other : BoundingObject) :
    Except String (Option Collision) :=
  if sameObject other (.triangles tris) then .ok none
  else
    match other with
    | .capsule otherBounds => .ok (invertCollision (.capsule otherBounds) (btCapsuleTriangles otherBounds tris))
    | .sphere otherBounds => .ok (invertCollision (.sphere otherBounds) (btSphereTriangles otherBounds tris))
    | .aabb _ => .ok none
    | .triangles _ => .ok none
    | .unrecognized _ => .error "Unimplemented bounds type"

/-- The uniform `Collision(other)` operation over the closed set of volume
types: the capsule case is the studied source; the other three are
modelled from the spec. A volume outside the studied set has no method
here. -/
def BoundingObject.Collision : BoundingObject → BoundingObject → Except String (Option Collision)
  | .capsule c, other => c.CollisionE other
  | .sphere s, other => s.CollisionE other
  | .aabb b, other => b.CollisionE other
  | .triangles t, other => t.CollisionE other
  | .unrecognized _, _ => .error "Unimplemented bounds type"

/-- Modelled from the spec: the querying capsule displaced by the movement
delta — the sweep query is a discrete test of the volume at its displaced
position. Object identity is preserved. -/
def BoundingCapsule.displaced (c : BoundingCapsule) (dx dy dz : ℚ) : BoundingCapsule :=
  { c with node := c.node.map (fun n => { n with worldPos := vadd n.worldPos ⟨dx, dy, dz⟩ }) }

/-- The contact point of a collision's first Intersection, the point the
sweep query measures distances to; `dflt` covers the empty list, which no
produced Collision has. -/
def firstContact (dflt : Vec3) : Collision → Vec3
  | { intersections := [], .. } => dflt
  | { intersections := i :: _, .. } => i.contactPoint

/-- The sweep query's sort key for a Collision: the squared distance from
the querying capsule's current (pre-move) world position to the
collision's contact point. Comparing squared distances orders exactly as
comparing distances, both being nonnegative. -/
def collisionKey (c : BoundingCapsule) (col : Collision) : ℚ :=
  distSq c.nodeOrZero.worldPos (firstContact c.nodeOrZero.worldPos col)

/-- Inserts a collision into a list sorted by the key, keeping it sorted
(stable insertion). -/
def insertByKey (k : Collision → ℚ) (x : Collision) : List Collision → List Collision
  | [] => [x]
  | y :: ys => if k x ≤ k y then x :: y :: ys else y :: insertByKey k x ys

/-- Stable insertion sort of collisions by ascending key. -/
def sortByKey (k : Collision → ℚ) : List Collision → List Collision
  | [] => []
  | x :: xs => insertByKey k x (sortByKey k xs)

/-- Runs the displaced capsule's pairwise test against each candidate in
order, keeping the non-nil results; a panic in any pairwise test
propagates. -/
def collectCollisions (moved : BoundingCapsule) :
    List BoundingObject → Except String (List Collision)
  | [] => .ok []
  | o :: os =>
      match moved.CollisionE o with
      | .error e => .error e
      | .ok none => collectCollisions moved os
      | .ok (some col) =>
          match collectCollisions moved os with
          | .error e => .error e
          | .ok cs => .ok (col :: cs)

/-- Modelled from the spec: `commonCollisionTest` (spec 4.5): tests the
volume at its displaced position against each candidate with the pairwise
tests, skipping volumes identical to the querying volume (the pairwise
self-check, identity being preserved by the displacement), and returns all
resulting Collisions ordered by ascending distance from the volume's
current position to the contact point of each collision; the empty
sequence when no candidate yields an intersection. -/
def commonCollisionTest (capsule : BoundingCapsule) (dx dy dz : ℚ)
    (others : List BoundingObject) : Except String (List Collision) :=
  match collectCollisions (capsule.displaced dx dy dz) others with
  | .error e => .error e
  | .ok cols => .ok (sortByKey (collisionKey capsule) cols)

/-- `CollisionTest` on the capsule (source, lines 96-98): delegates to
`commonCollisionTest`. -/
def BoundingCapsule.CollisionTest (capsule : BoundingCapsule) (dx dy dz : ℚ)
    (others : List BoundingObject) : Except String (List Collision) :=
  commonCollisionTest capsule dx dy dz others

/-- `CollisionTestVec` on the capsule (source, lines 103-105): delegates to
`commonCollisionTest` on the vector's three components. -/
def BoundingCapsule.CollisionTestVec (capsule : BoundingCapsule) (moveVec : Vec3)
    (others : List BoundingObject) : Except String (List Collision) :=
  commonCollisionTest capsule moveVec.x moveVec.y moveVec.z others

/-- Membership in the result of a sorted insertion: exactly the inserted
element and the old elements. -/
theorem mem_insertByKey (k : Collision → ℚ) (x z : Collision) (l : List Collision) :
    z ∈ insertByKey k x l ↔ z = x ∨ z ∈ l := by
  induction l with
  | nil => simp [insertByKey]
  | cons y ys ih =>
    rw [insertByKey]
    split
    · exact List.mem_cons
    · simp [List.mem_cons, ih]
      tauto

/-- Sorted insertion preserves sortedness by the key. -/
theorem sorted_insertByKey (k : Collision → ℚ) (x : Collision) (l : List Collision)
    (h : List.Sorted (fun a b => k a ≤ k b) l) :
    List.Sorted (fun a b => k a ≤ k b) (insertByKey k x l) := by
  induction l with
  | nil => simp [insertByKey]
  | cons y ys ih =>
    rw [List.sorted_cons] at h
    rw [insertByKey]
    split
    · refine List.sorted_cons.mpr ⟨?_, List.sorted_cons.mpr h⟩
      intro z hz
      rcases List.mem_cons.mp hz with rfl | hz
      · assumption
      · exact le_trans (by assumption) (h.1 z hz)
    · refine List.sorted_cons.mpr ⟨?_, ih h.2⟩
      intro z hz
      rcases (mem_insertByKey k x z ys).mp hz with rfl | hz
      · exact le_of_not_le (by assumption)
      · exact h.1 z hz

/-- The insertion sort used by the sweep query always produces a list
sorted by ascending key. -/
theorem sorted_sortByKey (k : Collision → ℚ) (l : List Collision) :
    List.Sorted (fun a b => k a ≤ k b) (sortByKey k l) := by
  induction l with
  | nil => simp [sortByKey]
  | cons x xs ih => exact sorted_insertByKey k x _ ih

/-- The Sphere-Capsule routine never produces an empty intersection
list. -/
theorem btSphereCapsule_ne_nil {s : BoundingSphere} {c : BoundingCapsule} {col : Collision}
    (h : btSphereCapsule s c = some col) : col.intersections ≠ [] := by
  unfold btSphereCapsule at h
  dsimp only at h
  split at h
  · cases h
    simp
  · cases h

/-- The Capsule-Capsule routine never produces an empty intersection
list. -/
theorem btCapsuleCapsule_ne_nil {a b : BoundingCapsule} {col : Collision}
    (h : btCapsuleCapsule a b = some col) : col.intersections ≠ [] := by
  unfold btCapsuleCapsule at h
  dsimp only at h
  split at h
  · cases h
    simp
  · cases h

/-- The Capsule-AABB routine never produces an empty intersection list. -/
theorem btCapsuleAABB_ne_nil {c : BoundingCapsule} {b : BoundingAABB} {col : Collision}
    (h : btCapsuleAABB c b = some col) : col.intersections ≠ [] := by
  unfold btCapsuleAABB at h
  dsimp only at h
  split at h
  · cases h
    simp
  · cases h

/-- The Capsule-Triangles routine never produces an empty intersection
list. -/
theorem btCapsuleTriangles_ne_nil {c : BoundingCapsule} {t : BoundingTriangles} {col : Collision}
    (h : btCapsuleTriangles c t = some col) : col.intersections ≠ [] := by
  unfold btCapsuleTriangles at h
  split at h
  · cases h
  · cases h
    simp

/-- Every Collision the capsule's dispatch produces carries at least one
Intersection. -/
theorem collisionE_some_ne_nil {c : BoundingCapsule} {o : BoundingObject} {col : Collision}
    (h : c.CollisionE o = .ok (some col)) : col.intersections ≠ [] := by
  unfold BoundingCapsule.CollisionE at h
  split at h
  · cases h
  · split at h
    · exact btCapsuleCapsule_ne_nil (Except.ok.inj h)
    · have h2 := Except.ok.inj h
      rcases Option.map_eq_some'.mp h2 with ⟨col0, hcol0, rfl⟩
      simpa using btSphereCapsule_ne_nil hcol0
    · exact btCapsuleAABB_ne_nil (Except.ok.inj h)
    · exact btCapsuleTriangles_ne_nil (Except.ok.inj h)
    · cases h

/-- The rational maximum helper agrees with the order-theoretic maximum. -/
theorem qmax_eq_max (a b : ℚ) : qmax a b = max a b := by
  rw [qmax, max_def]

/-- The clamp into the unit interval is nonnegative. -/
theorem clamp01_nonneg (t : ℚ) : 0 ≤ clamp01 t := by
  rw [clamp01, qmax, qmin]
  split_ifs <;> linarith

/-- The clamp into the unit interval is at most one. -/
theorem clamp01_le_one (t : ℚ) : clamp01 t ≤ 1 := by
  rw [clamp01, qmax, qmin]
  split_ifs <;> linarith

/-- Claim C3: `NewBoundingCapsule` produces a capsule with Height = max(radius,
height) and Radius = radius — a height less than the radius is silently
clamped, never rejected — so Height is at least Radius at construction;
and `Clone`, the only other operation of the type that produces a capsule,
re-clamps through the constructor, so Height is at least Radius for every
capsule reachable through the type's operations. -/
theorem c3_construction_clamps_height :
    (∀ (name : String) (h r : ℚ) (id : Nat),
        (NewBoundingCapsule name h r id).Height = max r h ∧
        (NewBoundingCapsule name h r id).Radius = r ∧
        (NewBoundingCapsule name h r id).Radius ≤ (NewBoundingCapsule name h r id).Height) ∧
    (∀ (c : BoundingCapsule) (newId : Nat),
        (c.Clone newId).Radius ≤ (c.Clone newId).Height) := by
  constructor
  · intro name h r id
    refine ⟨qmax_eq_max r h, rfl, ?_⟩
    show r ≤ qmax r h
    rw [qmax_eq_max]
    exact le_max_left r h
  · intro c newId
    show c.Radius ≤ qmax c.Radius c.Height
    rw [qmax_eq_max]
    exact le_max_left _ _

/-- Claim C4: for a capsule attached to a node, `lineBottom` and `lineTop` are
the node's world position offset by minus and plus (Height/2 - Radius)
along the node's world-up vector, and `Bottom` and `Top` are the world
position offset by minus and plus Height/2 along world-up (the
full-height endpoints, unclipped by the radius). -/
theorem c4_endpoint_offsets (c : BoundingCapsule) (n : Node) (hn : c.node = some n) :
    c.lineBottom = vadd n.worldPos (vscale n.up (-(c.Height / 2 - c.Radius))) ∧
    c.lineTop = vadd n.worldPos (vscale n.up (c.Height / 2 - c.Radius)) ∧
    c.Bottom = vadd n.worldPos (vscale n.up (-(c.Height / 2))) ∧
    c.Top = vadd n.worldPos (vscale n.up (c.Height / 2)) := by
  have hz : c.nodeOrZero = n := by
    rw [BoundingCapsule.nodeOrZero, hn]
    rfl
  refine ⟨?_, ?_, ?_, ?_⟩ <;>
    simp only [BoundingCapsule.lineBottom, BoundingCapsule.lineTop, BoundingCapsule.Bottom,
      BoundingCapsule.Top, hz, Node.WorldPosition, Node.worldUp, vadd, vscale] <;>
    ext <;> ring

/-- Claim C4 witness: the offsets evaluated on a concrete capsule of height 4 and
radius 1 sitting at (0,3,0) with identity rotation. -/
theorem c4_witness :
    (NewBoundingCapsule "w" 4 1 3).lineBottom =
        vadd (NewNode "w" 3).worldPos (vscale (NewNode "w" 3).up
          (-((NewBoundingCapsule "w" 4 1 3).Height / 2 - (NewBoundingCapsule "w" 4 1 3).Radius))) ∧
    (NewBoundingCapsule "w" 4 1 3).lineTop =
        vadd (NewNode "w" 3).worldPos (vscale (NewNode "w" 3).up
          ((NewBoundingCapsule "w" 4 1 3).Height / 2 - (NewBoundingCapsule "w" 4 1 3).Radius)) ∧
    (NewBoundingCapsule "w" 4 1 3).Bottom =
        vadd (NewNode "w" 3).worldPos (vscale (NewNode "w" 3).up
          (-((NewBoundingCapsule "w" 4 1 3).Height / 2))) ∧
    (NewBoundingCapsule "w" 4 1 3).Top =
        vadd (NewNode "w" 3).worldPos (vscale (NewNode "w" 3).up
          ((NewBoundingCapsule "w" 4 1 3).Height / 2)) :=
  c4_endpoint_offsets (NewBoundingCapsule "w" 4 1 3) (NewNode "w" 3) rfl

/-- Claim C6: a bounding volume of any of the four supported types never
collides with itself: `Collision` with the volume itself as the partner
returns none, whatever the volume's geometry or transform. -/
theorem c6_no_self_collision (A : BoundingObject) (h : A.isKnown = true) :
    BoundingObject.Collision A A = .ok none := by
  cases A <;>
    simp_all [BoundingObject.Collision, BoundingCapsule.CollisionE, BoundingSphere.CollisionE,
      BoundingAABB.CollisionE, BoundingTriangles.CollisionE, sameObject, BoundingObject.tag,
      BoundingObject.objId, BoundingObject.isKnown]

/-- Claim C6 witness: self-collision of a concrete capsule is none. -/
theorem c6_witness :
    BoundingObject.Collision (.capsule (NewBoundingCapsule "w" 4 1 6))
      (.capsule (NewBoundingCapsule "w" 4 1 6)) = .ok none :=
  c6_no_self_collision (.capsule (NewBoundingCapsule "w" 4 1 6)) rfl

/-- Claim C7: dispatching `Collision` on any supported volume against a partner
whose concrete type is outside the four supported bounding-volume types is
a fatal, non-recoverable error — the operation panics instead of
returning a degraded or default result. -/
theorem c7_unrecognized_partner_panics (A : BoundingObject) (i : Nat) (h : A.isKnown = true) :
    BoundingObject.Collision A (.unrecognized i) = .error "Unimplemented bounds type" := by
  cases A <;>
    simp_all [BoundingObject.Collision, BoundingCapsule.CollisionE, BoundingSphere.CollisionE,
      BoundingAABB.CollisionE, BoundingTriangles.CollisionE, sameObject, BoundingObject.tag,
      BoundingObject.objId, BoundingObject.isKnown]

/-- Claim C7 witness: a concrete capsule against an unrecognized partner
panics. -/
theorem c7_witness :
    BoundingObject.Collision (.capsule (NewBoundingCapsule "w" 4 1 7)) (.unrecognized 99) =
      .error "Unimplemented bounds type" :=
  c7_unrecognized_partner_panics (.capsule (NewBoundingCapsule "w" 4 1 7)) 99 rfl

/-- Claim C9: the capsule's `Colliding` answers true exactly when the pairwise
test produces at least one Intersection — equivalently, exactly when
`Collision` returns a non-nil result, every produced Collision carrying a
nonempty intersection list. -/
theorem c9_colliding_iff_intersection (c : BoundingCapsule) (o : BoundingObject) :
    c.CollidingE o = .ok true ↔
      ∃ col, c.CollisionE o = .ok (some col) ∧ col.intersections ≠ [] := by
  rw [BoundingCapsule.CollidingE]
  cases h : c.CollisionE o with
  | error e =>
      simp only [Except.map]
      constructor
      · intro hfalse
        cases hfalse
      · rintro ⟨col, hcol, -⟩
        cases hcol
  | ok oc =>
      cases oc with
      | none =>
          simp only [Except.map, Option.isSome]
          constructor
          · intro hfalse
            cases hfalse
          · rintro ⟨col, hcol, -⟩
            cases hcol
      | some col =>
          simp only [Except.map, Option.isSome]
          constructor
          · intro _
            exact ⟨col, rfl, collisionE_some_ne_nil h⟩
          · intro _
            trivial

/-- Claim C10: for a capsule whose central segment has nonzero squared length,
`ClosestPoint` returns lineBottom plus a parameter clamped into the unit
interval times (lineTop minus lineBottom) — a point on the central
segment. The hypothesis mirrors the source's precondition: the parameter
divides by the segment's squared length with no guard (float division by
zero there; rational division is total here, which is why the hypothesis
goes unused in this embedding's proof). -/
theorem c10_closestPoint_on_segment (c : BoundingCapsule) (p : Vec3)
    (h : dot (vsub c.lineTop c.lineBottom) (vsub c.lineTop c.lineBottom) ≠ 0) :
    ∃ t : ℚ, 0 ≤ t ∧ t ≤ 1 ∧
      c.ClosestPoint p = vadd c.lineBottom (vscale (vsub c.lineTop c.lineBottom) t) := by
  refine ⟨clamp01 (dot (vsub p c.lineBottom) (vsub c.lineTop c.lineBottom) /
      dot (vsub c.lineTop c.lineBottom) (vsub c.lineTop c.lineBottom)),
    clamp01_nonneg _, clamp01_le_one _, ?_⟩
  rfl

/-- Claim C10 witness: a concrete capsule of height 4 and radius 1 at the origin
with identity rotation has a central segment of squared length 4, and the
closest point to (5,7,2) is on that segment. -/
theorem c10_witness :
    ∃ t : ℚ, 0 ≤ t ∧ t ≤ 1 ∧
      (NewBoundingCapsule "w" 4 1 10).ClosestPoint ⟨5, 7, 2⟩ =
        vadd (NewBoundingCapsule "w" 4 1 10).lineBottom
          (vscale (vsub (NewBoundingCapsule "w" 4 1 10).lineTop
            (NewBoundingCapsule "w" 4 1 10).lineBottom) t) :=
  c10_closestPoint_on_segment (NewBoundingCapsule "w" 4 1 10) ⟨5, 7, 2⟩ (by
    norm_num [BoundingCapsule.lineTop, BoundingCapsule.lineBottom, BoundingCapsule.nodeOrZero,
      NewBoundingCapsule, NewNode, Node.WorldPosition, Node.worldUp, vadd, vsub, vscale, dot,
      qmax])

/-- Claim C5: when the capsule's `Collision` is called with a sphere as the
partner, the result is the Sphere-Capsule routine applied with the
arguments swapped; when an intersection is found, every Intersection's MTV
and contact normal are sign-flipped (the contact point is untouched) so
the result is expressed from the capsule's point of view, and the
Collision's collided-object reference is set to the sphere. -/
theorem c5_sphere_partner_inverted (c : BoundingCapsule) (s : BoundingSphere) (col : Collision)
    (h : btSphereCapsule s c = some col) :
    c.CollisionE (.sphere s) = .ok (some
      { collidedObject := .sphere s
        intersections := col.intersections.map (fun i =>
          { MTV := vneg i.MTV, normal := vneg i.normal, contactPoint := i.contactPoint }) }) := by
  rw [BoundingCapsule.CollisionE]
  rw [if_neg (by simp [sameObject, BoundingObject.tag])]
  rw [h]
  rfl

/-- The node of the C5 witness sphere: at the origin, identity rotation,
unit scale. -/
def c5SphereNode : Node :=
  { worldPos := ⟨0, 0, 0⟩, up := ⟨0, 1, 0⟩, localScale := ⟨1, 1, 1⟩,
    parentScale := ⟨1, 1, 1⟩, name := "s", id := 51 }

/-- The concrete sphere of the C5 witness scenario: radius 1 at the
origin. -/
def c5Sphere : BoundingSphere := { node := some c5SphereNode, Radius := 1, id := 51 }

/-- The node of the C5 witness capsule: at (0, 5/2, 0), identity rotation,
unit scale. -/
def c5CapsuleNode : Node :=
  { worldPos := ⟨0, 5 / 2, 0⟩, up := ⟨0, 1, 0⟩, localScale := ⟨1, 1, 1⟩,
    parentScale := ⟨1, 1, 1⟩, name := "c", id := 52 }

/-- The concrete capsule of the C5 witness scenario: height 4, radius 1,
at (0, 5/2, 0) with identity rotation. -/
def c5Capsule : BoundingCapsule :=
  { node := some c5CapsuleNode, Height := 4, Radius := 1
    internalSphere := NewBoundingSphere "internal sphere" 0 52
    id := 52 }

/-- The Sphere-Capsule result of the C5 witness scenario, from the
sphere's point of view: the segment point nearest the sphere center is
(0, 3/2, 0), distance 3/2, radius sum 2, so MTV (0, -1/2, 0), normal
(0, -1, 0), contact point (0, 1, 0) on the sphere's surface. -/
def c5Col : Collision :=
  { collidedObject := .capsule c5Capsule
    intersections := [{ MTV := ⟨0, -1 / 2, 0⟩, normal := ⟨0, -1, 0⟩,
                        contactPoint := ⟨0, 1, 0⟩ }] }

/-- Claim C5 witness: the dispatch on the concrete scenario, with the
Sphere-Capsule hypothesis discharged by evaluation. -/
theorem c5_witness :
    c5Capsule.CollisionE (.sphere c5Sphere) = .ok (some
      { collidedObject := .sphere c5Sphere
        intersections := c5Col.intersections.map (fun i =>
          { MTV := vneg i.MTV, normal := vneg i.normal, contactPoint := i.contactPoint }) }) :=
  c5_sphere_partner_inverted c5Capsule c5Sphere c5Col (by
    rw [btSphereCapsule]
    norm_num [c5Sphere, c5Capsule, c5SphereNode, c5CapsuleNode, BoundingSphere.WorldPosition, BoundingSphere.WorldRadius,
      BoundingSphere.nodeOrZero, BoundingCapsule.WorldRadius, BoundingCapsule.ClosestPoint,
      BoundingCapsule.nodeOrZero, Node.WorldPosition, Node.worldUp, Node.WorldScale, Node.LocalScale,
      compMul, maxAbs3, qabs, qmax, qmin, vadd, vsub, vscale, dot, normSq, c5Col]
    rw [show sqrtQ (9 / 4) = 3 / 2 by
      rw [sqrtQ]
      norm_num [show natSqrt 9 = 3 from by decide, show natSqrt 4 = 2 from by decide,
        show (9 : Int).toNat = 9 from rfl]]
    norm_num [vscale, vsub])

/-- The node of the C2 counterexample: its own scale is (1,1,1) but it
sits under an ancestor chain of accumulated scale (2,2,2), so its world
scale is (2,2,2). -/
def c2Node : Node :=
  { worldPos := ⟨0, 0, 0⟩, up := ⟨0, 1, 0⟩, localScale := ⟨1, 1, 1⟩,
    parentScale := ⟨2, 2, 2⟩, name := "n", id := 22 }

/-- The capsule of the C2 counterexample: local radius 3, attached to
`c2Node`. -/
def c2Capsule : BoundingCapsule :=
  { node := some c2Node, Height := 8, Radius := 3
    internalSphere := NewBoundingSphere "internal sphere" 0 22
    id := 22 }

/-- Claim C2 counterexample: for a capsule of radius 3 on a node of local scale
(1,1,1) under a parent of scale 2, `WorldRadius` returns 3 while the
radius times the maximum absolute component of the node's world scale is
6 — `WorldRadius` reads the node's local scale, not its world scale. -/
theorem c2_counterexample :
    c2Capsule.WorldRadius ≠ c2Capsule.Radius * maxAbs3 c2Node.WorldScale := by
  norm_num [c2Capsule, c2Node, BoundingCapsule.WorldRadius, Node.WorldScale, Node.LocalScale,
    compMul, maxAbs3, qabs, qmax]

/-- Claim C2 (amended): for every capsule attached to a node, `WorldRadius` is
the local Radius times the maximum of the absolute values of the three
components of the node's LOCAL scale — the node's own scale, not composed
with its ancestors. -/
theorem c2_worldRadius_uses_localScale (c : BoundingCapsule) (n : Node) (h : c.node = some n) :
    c.WorldRadius = c.Radius * maxAbs3 n.LocalScale := by
  rw [BoundingCapsule.WorldRadius, h]

/-- Claim C2 witness: the amended statement evaluated on the counterexample
capsule. -/
theorem c2_witness : c2Capsule.WorldRadius = c2Capsule.Radius * maxAbs3 c2Node.LocalScale :=
  c2_worldRadius_uses_localScale c2Capsule c2Node rfl

/-- The node of the C1 scenario capsule: at the origin, identity rotation,
unit scale. -/
def c1CapsuleNode : Node :=
  { worldPos := ⟨0, 0, 0⟩, up := ⟨0, 1, 0⟩, localScale := ⟨1, 1, 1⟩,
    parentScale := ⟨1, 1, 1⟩, name := "c", id := 11 }

/-- The C1 scenario capsule: height 4, radius 1, at the origin, about to
move by (10, 0, 0). -/
def c1Capsule : BoundingCapsule :=
  { node := some c1CapsuleNode, Height := 4, Radius := 1
    internalSphere := NewBoundingSphere "internal sphere" 0 11
    id := 11 }

/-- A node of a C1 scenario sphere, on the x axis at `px`. -/
def c1SphereNode (px : ℚ) (i : Nat) : Node :=
  { worldPos := ⟨px, 0, 0⟩, up := ⟨0, 1, 0⟩, localScale := ⟨1, 1, 1⟩,
    parentScale := ⟨1, 1, 1⟩, name := "s", id := i }

/-- A C1 scenario sphere of radius 3/10 on the x axis at `px`. -/
def c1Sphere (px : ℚ) (i : Nat) : BoundingSphere :=
  { node := some (c1SphereNode px i), Radius := 3 / 10, id := i }

/-- The three non-overlapping C1 spheres, at increasing distances along
the movement vector (the x axis): centers 19/2, 21/2 and 56/5, radius
3/10 each (gaps 1 and 7/10, both above the radius sum 3/5). -/
def c1Others : List BoundingObject :=
  [.sphere (c1Sphere (19 / 2) 12), .sphere (c1Sphere (21 / 2) 13),
   .sphere (c1Sphere (56 / 5) 14)]

/-- The Collision with the first C1 sphere, from the capsule's point of
view after the dispatch inversion. -/
def c1Col1 : Collision :=
  { collidedObject := .sphere (c1Sphere (19 / 2) 12)
    intersections := [{ MTV := ⟨4 / 5, 0, 0⟩, normal := ⟨1, 0, 0⟩,
                        contactPoint := ⟨49 / 5, 0, 0⟩ }] }

/-- The Collision with the second C1 sphere. -/
def c1Col2 : Collision :=
  { collidedObject := .sphere (c1Sphere (21 / 2) 13)
    intersections := [{ MTV := ⟨-(4 / 5), 0, 0⟩, normal := ⟨-1, 0, 0⟩,
                        contactPoint := ⟨51 / 5, 0, 0⟩ }] }

/-- The Collision with the third C1 sphere. -/
def c1Col3 : Collision :=
  { collidedObject := .sphere (c1Sphere (56 / 5) 14)
    intersections := [{ MTV := ⟨-(1 / 10), 0, 0⟩, normal := ⟨-1, 0, 0⟩,
                        contactPoint := ⟨109 / 10, 0, 0⟩ }] }

/-- The square root of 1/4 evaluates exactly. -/
theorem sqrtQ_quarter : sqrtQ (1 / 4) = 1 / 2 := by
  rw [sqrtQ]
  norm_num [show natSqrt 1 = 1 from by decide, show natSqrt 4 = 2 from by decide,
    show (1 : Int).toNat = 1 from rfl]

/-- The square root of 36/25 evaluates exactly. -/
theorem sqrtQ_36_25 : sqrtQ (36 / 25) = 6 / 5 := by
  rw [sqrtQ]
  norm_num [show natSqrt 36 = 6 from by decide, show natSqrt 25 = 5 from by decide,
    show (36 : Int).toNat = 36 from rfl]

/-- The C1 sweep query evaluated on the concrete scenario: three
Collisions, one per sphere, in ascending contact-point distance order. -/
theorem c1_eval :
    c1Capsule.CollisionTest 10 0 0 c1Others = .ok [c1Col1, c1Col2, c1Col3] := by
  rw [BoundingCapsule.CollisionTest, commonCollisionTest]
  norm_num [c1Capsule, c1CapsuleNode, c1Sphere, c1SphereNode, c1Others, c1Col1, c1Col2, c1Col3,
    BoundingCapsule.displaced, collectCollisions, BoundingCapsule.CollisionE, sameObject,
    BoundingObject.tag, BoundingObject.objId, btSphereCapsule, BoundingSphere.WorldPosition,
    BoundingSphere.WorldRadius, BoundingSphere.nodeOrZero, BoundingCapsule.WorldRadius,
    BoundingCapsule.ClosestPoint, BoundingCapsule.nodeOrZero, Node.WorldPosition, Node.worldUp,
    Node.WorldScale, Node.LocalScale, compMul, maxAbs3, qabs, qmax, qmin, vadd, vsub, vscale,
    dot, normSq, distSq, invertIntersection, vneg, sortByKey, insertByKey, collisionKey,
    firstContact, sqrtQ_quarter, sqrtQ_36_25]

/-- Claim C1: the sweep query `CollisionTest` always returns its Collisions
sorted by ascending distance from the querying capsule's current position
to each collision's contact point (squared-distance comparison, which
orders identically); and on the concrete scenario of a capsule moving by
(10,0,0) toward three non-overlapping spheres placed at increasing
distances along the movement vector, it returns the three Collisions in
strictly increasing distance order. -/
theorem c1_collisionTest_sorted :
    (∀ (c : BoundingCapsule) (dx dy dz : ℚ) (others : List BoundingObject)
        (cols : List Collision), c.CollisionTest dx dy dz others = .ok cols →
        List.Sorted (fun a b => collisionKey c a ≤ collisionKey c b) cols) ∧
    (c1Capsule.CollisionTest 10 0 0 c1Others = .ok [c1Col1, c1Col2, c1Col3] ∧
      collisionKey c1Capsule c1Col1 < collisionKey c1Capsule c1Col2 ∧
      collisionKey c1Capsule c1Col2 < collisionKey c1Capsule c1Col3) := by
  constructor
  · intro c dx dy dz others cols h
    rw [BoundingCapsule.CollisionTest, commonCollisionTest] at h
    cases hc : collectCollisions (c.displaced dx dy dz) others with
    | error e =>
        rw [hc] at h
        cases h
    | ok l =>
        rw [hc] at h
        cases h
        exact sorted_sortByKey (collisionKey c) l
  · refine ⟨c1_eval, ?_, ?_⟩ <;>
      norm_num [collisionKey, c1Capsule, c1CapsuleNode, c1Col1, c1Col2, c1Col3,
        BoundingCapsule.nodeOrZero, firstContact, distSq, normSq, dot, vsub]

/-- Claim C1 witness: the sortedness statement applied to the concrete
three-sphere scenario, its hypothesis discharged by the evaluated sweep
query. -/
theorem c1_witness :
    List.Sorted (fun a b => collisionKey c1Capsule a ≤ collisionKey c1Capsule b)
      [c1Col1, c1Col2, c1Col3] :=
  c1_collisionTest_sorted.1 c1Capsule 10 0 0 c1Others [c1Col1, c1Col2, c1Col3]
    c1_collisionTest_sorted.2.1

/-- Claim C8: when no candidate yields an intersection — every pairwise test of
the displaced capsule answers none — the sweep query returns the empty
sequence, not a null/absent sentinel. -/
theorem c8_no_intersection_empty (c : BoundingCapsule) (dx dy dz : ℚ)
    (others : List BoundingObject)
    (h : ∀ o ∈ others, (c.displaced dx dy dz).CollisionE o = .ok none) :
    c.CollisionTest dx dy dz others = .ok [] := by
  rw [BoundingCapsule.CollisionTest, commonCollisionTest]
  have hcollect : collectCollisions (c.displaced dx dy dz) others = .ok [] := by
    induction others with
    | nil => rfl
    | cons o os ih =>
        rw [collectCollisions, h o (List.mem_cons_self o os)]
        exact ih (fun o' ho' => h o' (List.mem_cons_of_mem o ho'))
  rw [hcollect]
  rfl

/-- The far sphere of the C8 witness scenario: radius 1 at (100,0,0),
far beyond the displaced capsule's reach. -/
def c8SphereNode : Node :=
  { worldPos := ⟨100, 0, 0⟩, up := ⟨0, 1, 0⟩, localScale := ⟨1, 1, 1⟩,
    parentScale := ⟨1, 1, 1⟩, name := "s", id := 82 }

/-- The far sphere of the C8 witness scenario. -/
def c8Sphere : BoundingSphere := { node := some c8SphereNode, Radius := 1, id := 82 }

/-- Claim C8 witness: a capsule moved by (10,0,0) toward nothing — its only
candidate 90 units away — yields the empty sequence. -/
theorem c8_witness :
    (NewBoundingCapsule "w" 4 1 81).CollisionTest 10 0 0 [.sphere c8Sphere] = .ok [] :=
  c8_no_intersection_empty (NewBoundingCapsule "w" 4 1 81) 10 0 0 [.sphere c8Sphere] (by
    intro o ho
    rw [List.mem_singleton] at ho
    subst ho
    norm_num [BoundingCapsule.CollisionE, sameObject, BoundingObject.tag, BoundingObject.objId,
      BoundingCapsule.displaced, btSphereCapsule, c8Sphere, c8SphereNode, NewBoundingCapsule,
      NewNode, BoundingSphere.WorldPosition, BoundingSphere.WorldRadius, BoundingSphere.nodeOrZero,
      BoundingCapsule.WorldRadius, BoundingCapsule.ClosestPoint, BoundingCapsule.nodeOrZero,
      Node.WorldPosition, Node.worldUp, Node.WorldScale, Node.LocalScale, compMul, maxAbs3,
      qabs, qmax, qmin, vadd, vsub, vscale, dot, normSq])

end Tetra3d
